import Mathlib

/-
A shallow embedding of `src/data_loader.py` (a one-shot ETL pipeline that
filters NYC taxi trip records to a fixed set of Bronx zones, stages them as a
CSV file, and bulk-loads them into a Neo4j graph), together with proofs about
the embedded operations.

Modelling conventions:
* pandas data frames become `List TripRecord`; the three boolean-mask filter
  lines become three successive `List.filter`s;
* float columns become exact rationals (`ℚ`); the literals `0.1` and `2.5`
  are stored in explicit reduced `num/den` form so that kernel evaluation of
  comparisons needs no rational normalisation;
* the Neo4j store becomes an explicit `Graph` state; the Cypher statements of
  `insert_data` become pure state transformers; a statement that Neo4j would
  reject (uniqueness-constraint violation, `toInteger`/`toFloat` coercion
  failure on a malformed cell) becomes an `Except.error`, and
  `session.execute_write` keeps the pre-transaction state on error;
* the filesystem seen by `os.makedirs`/`DataFrame.to_csv` becomes an explicit
  `FS` state whose staged files carry structured CSV content (header names
  plus one row of cells per record);
* control flow of one `main`-loop attempt (`DataLoader.__init__`,
  `load_transform_file`, `close`) becomes `runAttempt`, a straight-line
  function over an `Env` of step outcomes for the external world (store
  reachable, parquet readable, ...) which returns the success flag, the final
  external state, and the ordered trace of executed steps; a Python exception
  is an early return (later steps never run, no cleanup runs);
* the retry loop of `main` becomes `mainLoop`, structurally recursive on the
  number of remaining attempts.
-/

-- ## Filter Engine (src/data_loader.py lines 50–60)

/-- One trip record, restricted to the six columns selected on line 51. -/
structure TripRecord where
  tpep_pickup_datetime : String
  tpep_dropoff_datetime : String
  PULocationID : Int
  DOLocationID : Int
  trip_distance : ℚ
  fare_amount : ℚ
deriving DecidableEq

/-- The hardcoded allow-set of Bronx zone ids (line 54). -/
def bronx : List Int :=
  [3, 18, 20, 31, 32, 46, 47, 51, 58, 59, 60, 69, 78, 81, 94, 119, 126, 136,
   147, 159, 167, 168, 169, 174, 182, 183, 184, 185, 199, 200, 208, 212, 213,
   220, 235, 240, 241, 242, 247, 248, 250, 254, 259]

/-- The distance threshold `0.1` of line 56, stored in reduced `num/den` form
(proved equal to the literal `0.1` in `distanceCutoff_eq`). -/
def distanceCutoff : ℚ := ⟨1, 10, by norm_num, by norm_num⟩

/-- The fare threshold `2.5` of line 57, stored in reduced `num/den` form
(proved equal to the literal `2.5` in `fareCutoff_eq`). -/
def fareCutoff : ℚ := ⟨5, 2, by norm_num, by norm_num⟩

/-- The Filter Engine: the three successive boolean-mask filters of lines
55–57. Line 55 keeps a record only when the pickup zone and the dropoff zone
are both in `bronx`; line 56 keeps `trip_distance > 0.1`; line 57 keeps
`fare_amount > 2.5`. The `astype(str)` normalisation of lines 59–60 is the
identity here because the timestamp fields are already strings. -/
def filterTrips (trips : List TripRecord) : List TripRecord :=
  ((trips.filter fun r =>
      decide (r.PULocationID ∈ bronx) && decide (r.DOLocationID ∈ bronx)).filter
    fun r => decide (r.trip_distance > distanceCutoff)).filter
    fun r => decide (r.fare_amount > fareCutoff)

-- ## Staged-file name (line 65: `os.path.basename(file_path).replace('.parquet', '.csv')`)

/-- The characters of the pattern `'.parquet'`. -/
def parquetChars : List Char := ".parquet".data

/-- The characters of the replacement `'.csv'`. -/
def csvChars : List Char := ".csv".data

/-- Python's `str.replace('.parquet', '.csv')` on a character list: scan left
to right, replace each non-overlapping occurrence of `.parquet` by `.csv`,
and do not rescan replaced text. The first (overlapping) match arm takes
priority, which is exactly the leftmost-match rule. -/
def replaceParquet : List Char → List Char
  | '.' :: 'p' :: 'a' :: 'r' :: 'q' :: 'u' :: 'e' :: 't' :: rest =>
      '.' :: 'c' :: 's' :: 'v' :: replaceParquet rest
  | c :: cs => c :: replaceParquet cs
  | [] => []

/-- Whether `.parquet` occurs as a contiguous substring, by the same scan as
`replaceParquet`. -/
def containsParquet : List Char → Bool
  | '.' :: 'p' :: 'a' :: 'r' :: 'q' :: 'u' :: 'e' :: 't' :: _ => true
  | _ :: cs => containsParquet cs
  | [] => false

/-- Line 65: the staged file name derived from the input file's base name.
The extraction of the base name itself (`os.path.basename`) is treated as
done by the caller; this function is the `.replace('.parquet', '.csv')`. -/
def csv_filename (base : String) : String := ⟨replaceParquet base.data⟩

/-- Modelled from the spec: the name derivation the spec's words "filename
derived from the input file's base name with its extension replaced"
prescribe — drop the text after the last dot and append `csv`. Used only to
compare the code's `csv_filename` against the spec's description. -/
def extension_replaced_csv (base : String) : String :=
  let rev := base.data.reverse
  if '.' ∈ rev then ⟨((rev.dropWhile fun c => decide (c ≠ '.')).tail).reverse ++ ".csv".data⟩
  else base

-- ## Staging Writer (lines 62–68)

/-- One staged CSV row: the six cells of a data row, all rendered as text. -/
structure CsvRow where
  tpep_pickup_datetime : String
  tpep_dropoff_datetime : String
  PULocationID : String
  DOLocationID : String
  trip_distance : String
  fare_amount : String
deriving DecidableEq

/-- The header labels `to_csv` writes (the selected columns of line 51;
`index=False` suppresses the pandas index column). -/
def csvHeader : List String :=
  ["tpep_pickup_datetime", "tpep_dropoff_datetime", "PULocationID",
   "DOLocationID", "trip_distance", "fare_amount"]

/-- A staged file: header labels plus one row per record. -/
structure CsvFile where
  header : List String
  rows : List CsvRow
deriving DecidableEq

/-- Rendering of one record to its CSV cells. Numeric cells are rendered by
Lean's canonical `toString`; the exact float formatting of pandas is an
external concern the claims do not touch. -/
def tripToCsvRow (r : TripRecord) : CsvRow :=
  ⟨r.tpep_pickup_datetime, r.tpep_dropoff_datetime, toString r.PULocationID,
   toString r.DOLocationID, toString r.trip_distance, toString r.fare_amount⟩

/-- `DataFrame.to_csv(..., index=False)`: header plus the records' rows. -/
def to_csv (records : List TripRecord) : CsvFile :=
  ⟨csvHeader, records.map tripToCsvRow⟩

/-- The filesystem visible to the script: a set of existing directories and a
map from paths to staged-file contents. -/
structure FS where
  dirs : List String
  files : List (String × CsvFile)
deriving DecidableEq

/-- Content of the file at `path`, if any. -/
def fileContent (fs : FS) (path : String) : Option CsvFile :=
  (fs.files.find? fun pc => decide (pc.1 = path)).map fun pc => pc.2

/-- `os.makedirs(d, exist_ok=True)` (line 64): create the directory when it
is missing, do nothing (and raise nothing) when it exists. -/
def makedirs_exist_ok (d : String) (fs : FS) : FS :=
  if d ∈ fs.dirs then fs else { fs with dirs := fs.dirs ++ [d] }

/-- Writing a file (line 68): records the new content at `path`, replacing
any previous content (`to_csv` truncates an existing file). -/
def writeCsvFile (path : String) (content : CsvFile) (fs : FS) : FS :=
  { fs with files := (path, content) :: fs.files.filter fun pc => decide (pc.1 ≠ path) }

/-- The hardcoded Neo4j import directory of line 63. -/
def neo4j_import_dir : String :=
  "C:\\Users\\My PC\\.Neo4jDesktop\\relate-data\\dbmss\\dbms-6d74b52b-117b-4ad4-b766-e235cfc2a1b2\\import"

/-- `os.path.join` on the Windows paths the script uses. -/
def path_join (dir name : String) : String := dir ++ "\\" ++ name

/-- The Staging Writer (lines 62–68): ensure the import directory exists,
derive the staged file name, write the filtered records there, and return
the file name the loader will reference. -/
def stage (fs : FS) (base : String) (records : List TripRecord) : FS × String :=
  let fs1 := makedirs_exist_ok neo4j_import_dir fs
  let fname := csv_filename base
  (writeCsvFile (path_join neo4j_import_dir fname) (to_csv records) fs1, fname)

-- ## Schema Manager (lines 24–37)

/-- The three uniqueness constraints `create_constraints` declares. -/
inductive ConstraintKey where
  | pickupLocationId
  | dropoffLocationId
  | tripPickupDatetime
deriving DecidableEq

/-- All three constraint keys, in the order lines 29–37 create them. -/
def allConstraintKeys : List ConstraintKey :=
  [.pickupLocationId, .dropoffLocationId, .tripPickupDatetime]

/-- One `CREATE CONSTRAINT ... REQUIRE ... IS UNIQUE` statement as the store
executes it: with `IF NOT EXISTS` an already-present constraint is left
untouched and no error is raised; without that clause the store would reject
the duplicate. -/
def createConstraintStmt (ifNotExists : Bool) (c : ConstraintKey)
    (s : List ConstraintKey) : Except String (List ConstraintKey) :=
  if c ∈ s then
    if ifNotExists then .ok s else .error "equivalent constraint already exists"
  else .ok (s ++ [c])

/-- `DataLoader.create_constraints` (lines 24–37): three
`CREATE CONSTRAINT IF NOT EXISTS` statements, in source order. -/
def create_constraints (s : List ConstraintKey) : Except String (List ConstraintKey) :=
  match createConstraintStmt true .pickupLocationId s with
  | .error e => .error e
  | .ok s1 =>
    match createConstraintStmt true .dropoffLocationId s1 with
    | .error e => .error e
    | .ok s2 => createConstraintStmt true .tripPickupDatetime s2

-- ## Graph Loader (lines 72–94)

/-- A Trip node's attributes (the Cypher `CREATE` of lines 85–90). -/
structure TripNode where
  pickup_datetime : String
  dropoff_datetime : String
  trip_distance : ℚ
  fare_amount : ℚ
deriving DecidableEq

/-- The graph store's data: location nodes keyed by zone id, Trip nodes keyed
by an internal node id carrying their attributes, and the two edge sets. -/
structure Graph where
  pickupLocations : List Int
  dropoffLocations : List Int
  trips : List (Nat × TripNode)
  startsTrip : List (Int × Nat)
  endsTrip : List (Nat × Int)
  nextId : Nat
deriving DecidableEq

/-- The store after `MATCH (n) DETACH DELETE n` (line 44). -/
def emptyStore : Graph := ⟨[], [], [], [], [], 0⟩

/-- `DataLoader.delete_existing_data` (lines 39–44): remove every node and
relationship. -/
def delete_existing_data (_g : Graph) : Graph := emptyStore

/-- Numeric value of a digit string. -/
def digitsVal (ds : List Char) : Nat :=
  ds.foldl (fun n c => 10 * n + (c.toNat - '0'.toNat)) 0

/-- Cypher's `toInteger` on a CSV cell, for the integral decimal strings the
pipeline stages; any other shape fails the coercion (Neo4j then rejects the
`MERGE` on a null key). -/
def toInteger (s : String) : Option Int :=
  match s.data with
  | [] => none
  | '-' :: ds =>
      if !ds.isEmpty && ds.all Char.isDigit then some (-(digitsVal ds : Int)) else none
  | ds =>
      if ds.all Char.isDigit then some ((digitsVal ds : Int)) else none

/-- Value of an unsigned decimal string, with an optional fractional part. -/
def toFloatCore (ds : List Char) : Option ℚ :=
  let ip := ds.takeWhile Char.isDigit
  match ds.dropWhile Char.isDigit with
  | [] => if !ip.isEmpty then some ((digitsVal ip : ℚ)) else none
  | '.' :: fp =>
      if !ip.isEmpty && !fp.isEmpty && fp.all Char.isDigit then
        some ((digitsVal ip : ℚ) + (digitsVal fp : ℚ) / ((10 : ℚ) ^ fp.length))
      else none
  | _ => none

/-- Cypher's `toFloat` on a CSV cell, for plain decimal strings with an
optional sign and fractional part; any other shape fails the coercion. -/
def toFloat (s : String) : Option ℚ :=
  match s.data with
  | '-' :: ds => (toFloatCore ds).map Neg.neg
  | ds => toFloatCore ds

/-- `MERGE (p:PickupLocation {id: pu})`: locate the node, creating it only
when absent. -/
def mergePickup (g : Graph) (pu : Int) : Graph :=
  if pu ∈ g.pickupLocations then g
  else { g with pickupLocations := g.pickupLocations ++ [pu] }

/-- `MERGE (d:DropoffLocation {id: dl})`: locate the node, creating it only
when absent. -/
def mergeDropoff (g : Graph) (dl : Int) : Graph :=
  if dl ∈ g.dropoffLocations then g
  else { g with dropoffLocations := g.dropoffLocations ++ [dl] }

/-- `MERGE (p)-[:STARTS_TRIP]->(t)`: add the edge only when absent. -/
def mergeStartsTrip (g : Graph) (pu : Int) (tid : Nat) : Graph :=
  if (pu, tid) ∈ g.startsTrip then g
  else { g with startsTrip := g.startsTrip ++ [(pu, tid)] }

/-- `MERGE (t)-[:ENDS_TRIP]->(d)`: add the edge only when absent. -/
def mergeEndsTrip (g : Graph) (tid : Nat) (dl : Int) : Graph :=
  if (tid, dl) ∈ g.endsTrip then g
  else { g with endsTrip := g.endsTrip ++ [(tid, dl)] }

/-- The effect of the Cypher query of lines 81–93 on one CSV row: coerce the
four numeric cells (failure aborts), `MERGE` the two location nodes, `CREATE`
a fresh Trip node (rejected by the store when the uniqueness constraint on
`Trip.pickup_datetime` installed by `create_constraints` is violated), and
`MERGE` the `STARTS_TRIP` and `ENDS_TRIP` edges. -/
def insert_row (g : Graph) (row : CsvRow) : Except String Graph :=
  match toInteger row.PULocationID, toInteger row.DOLocationID,
      toFloat row.trip_distance, toFloat row.fare_amount with
  | some pu, some dl, some dist, some fare =>
      let g1 := mergePickup g pu
      let g2 := mergeDropoff g1 dl
      if g2.trips.any fun t => decide (t.2.pickup_datetime = row.tpep_pickup_datetime) then
        .error "uniqueness constraint violated on Trip.pickup_datetime"
      else
        let tid := g2.nextId
        let g3 := { g2 with
          trips := g2.trips ++
            [(tid, ⟨row.tpep_pickup_datetime, row.tpep_dropoff_datetime, dist, fare⟩)],
          nextId := tid + 1 }
        .ok (mergeEndsTrip (mergeStartsTrip g3 pu tid) tid dl)
  | _, _, _, _ => .error "type coercion failed"

/-- `DataLoader.insert_data` (lines 76–94): `LOAD CSV` feeds the staged rows
in order through the row query; the first failing row aborts the whole
statement. -/
def insert_data (rows : List CsvRow) (g : Graph) : Except String Graph :=
  match rows with
  | [] => .ok g
  | row :: rest =>
      match insert_row g row with
      | .ok g' => insert_data rest g'
      | .error e => .error e

/-- `session.execute_write(insert_data, ...)` (lines 72–73): the whole batch
runs inside one write transaction; on error the transaction rolls back and
the store keeps its previous contents, reporting the error. -/
def execute_write_insert (g : Graph) (rows : List CsvRow) : Graph × Option String :=
  match insert_data rows g with
  | .ok g' => (g', none)
  | .error e => (g, some e)

-- ## One pipeline attempt (lines 10–22, 46–74, 103–105)

/-- The observable steps of one attempt, in addition to the retry loop's
logging and backoff events. -/
inductive Ev where
  | connectVerify
  | constraintSetup
  | readParquet
  | filterRecords
  | normalizeTimestamps
  | makeImportDir
  | writeStagedCsv
  | wipeGraph
  | loadGraph
  | closeDriver
  | logAttempt (n : Nat)
  | sleepBackoff
deriving DecidableEq

/-- Outcomes of the external world for the steps of one attempt: whether the
store is reachable, the parquet file readable, and so on. `true` means the
step raises no exception of its own. -/
structure Env where
  connectOk : Bool
  constraintsOk : Bool
  readOk : Bool
  transformOk : Bool
  writeOk : Bool
  wipeOk : Bool
  loadStoreOk : Bool
deriving DecidableEq

/-- The external state one attempt acts on: the graph store, the filesystem,
and the store's constraint metadata. -/
structure World where
  graph : Graph
  fs : FS
  constraints : List ConstraintKey
deriving DecidableEq

/-- An empty store, an empty filesystem, no constraints. -/
def initialWorld : World := ⟨emptyStore, ⟨[], []⟩, []⟩

/-- One attempt of the `main` loop (lines 103–105): construct the
`DataLoader` (connect, verify connectivity, `create_constraints`), run
`load_transform_file` (read the parquet, select columns and filter, normalise
timestamps, ensure the import directory, write the staged CSV, wipe the
store, bulk-load the staged rows in one transaction), then `close`. Returns
the success flag, the final external state, and the ordered trace of steps
that ran. A `false` outcome in `env` makes the corresponding step raise:
execution stops there, later steps (including `close`) never run, and the
external state is whatever the completed steps left behind. -/
def runAttempt (env : Env) (records : List TripRecord) (base : String)
    (w : World) : Bool × World × List Ev :=
  if env.connectOk then
    if env.constraintsOk then
      match create_constraints w.constraints with
      | .error _ => (false, w, [.connectVerify, .constraintSetup])
      | .ok cs =>
        let w1 : World := { w with constraints := cs }
        if env.readOk then
          if env.transformOk then
            let filtered := filterTrips records
            let w2 : World := { w1 with fs := makedirs_exist_ok neo4j_import_dir w1.fs }
            if env.writeOk then
              let fname := csv_filename base
              let saveLoc := path_join neo4j_import_dir fname
              let w3 : World := { w2 with fs := writeCsvFile saveLoc (to_csv filtered) w2.fs }
              if env.wipeOk then
                let w4 : World := { w3 with graph := delete_existing_data w3.graph }
                let rows := ((fileContent w4.fs saveLoc).map CsvFile.rows).getD []
                if env.loadStoreOk then
                  match insert_data rows w4.graph with
                  | .error _ =>
                      (false, w4,
                        [.connectVerify, .constraintSetup, .readParquet, .filterRecords,
                         .normalizeTimestamps, .makeImportDir, .writeStagedCsv, .wipeGraph,
                         .loadGraph])
                  | .ok g' =>
                      (true, { w4 with graph := g' },
                        [.connectVerify, .constraintSetup, .readParquet, .filterRecords,
                         .normalizeTimestamps, .makeImportDir, .writeStagedCsv, .wipeGraph,
                         .loadGraph, .closeDriver])
                else
                  (false, w4,
                    [.connectVerify, .constraintSetup, .readParquet, .filterRecords,
                     .normalizeTimestamps, .makeImportDir, .writeStagedCsv, .wipeGraph,
                     .loadGraph])
              else
                (false, w3,
                  [.connectVerify, .constraintSetup, .readParquet, .filterRecords,
                   .normalizeTimestamps, .makeImportDir, .writeStagedCsv, .wipeGraph])
            else
              (false, w2,
                [.connectVerify, .constraintSetup, .readParquet, .filterRecords,
                 .normalizeTimestamps, .makeImportDir, .writeStagedCsv])
          else (false, w1, [.connectVerify, .constraintSetup, .readParquet, .filterRecords])
        else (false, w1, [.connectVerify, .constraintSetup, .readParquet])
    else (false, w, [.connectVerify, .constraintSetup])
  else (false, w, [.connectVerify])

/-- The full trace of a successful attempt. -/
def fullAttemptTrace : List Ev :=
  [.connectVerify, .constraintSetup, .readParquet, .filterRecords,
   .normalizeTimestamps, .makeImportDir, .writeStagedCsv, .wipeGraph,
   .loadGraph, .closeDriver]

/-- An external world in which every step succeeds. -/
def envAllOk : Env := ⟨true, true, true, true, true, true, true⟩

/-- An external world in which the store fails exactly at the bulk-load
transaction. -/
def envFailLoad : Env := ⟨true, true, true, true, true, true, false⟩

-- ## The retry loop of `main` (lines 97–110)

/-- `total_attempts = 10` (line 98). -/
def total_attempts : Nat := 10

/-- The `while attempt < total_attempts` loop of lines 101–110, structurally
recursive on the number of remaining attempts. A successful attempt sets
`attempt = total_attempts`, ending the loop; a failed attempt prints
`(Attempt attempt+1/total_attempts)` with the error, sleeps 10 seconds, and
retries. The loop itself never raises: it returns the final external state
and the concatenated trace. -/
def mainLoop (envs : Nat → Env) (records : List TripRecord) (base : String) :
    Nat → Nat → World → World × List Ev
  | 0, _, w => (w, [])
  | remaining + 1, attempt, w =>
      match runAttempt (envs attempt) records base w with
      | (true, w', tr) => (w', tr)
      | (false, w', tr) =>
          let rest := mainLoop envs records base remaining (attempt + 1) w'
          (rest.1, tr ++ Ev.logAttempt (attempt + 1) :: Ev.sleepBackoff :: rest.2)

/-- `main` (lines 97–110): run the loop from `attempt = 0` with the full
attempt budget. -/
def runMain (envs : Nat → Env) (records : List TripRecord) (base : String)
    (w : World) : World × List Ev :=
  mainLoop envs records base total_attempts 0 w

-- ## Concrete inputs used in counterexamples and witnesses

/-- A record between two Bronx zones whose distance `1/20 = 0.05` fails the
distance filter while both zone ids are in the allow-set. -/
def r_smallDistance : TripRecord :=
  ⟨"2023-03-01 00:00:00", "2023-03-01 00:10:00", 3, 18,
   ⟨1, 20, by norm_num, by norm_num⟩, 10⟩

/-- A well-formed staged row (zones 3 → 18, distance 2, fare 10). -/
def goodRow : CsvRow := ⟨"2023-03-01 00:00:00", "2023-03-01 00:10:00", "3", "18", "2", "10"⟩

/-- A staged row whose pickup zone cell is not numeric. -/
def badZoneRow : CsvRow := ⟨"2023-03-01 01:00:00", "2023-03-01 01:10:00", "abc", "18", "2", "10"⟩

/-- Whether an event is a retry-loop log entry. -/
def isLogEv : Ev → Bool
  | .logAttempt _ => true
  | _ => false

/-- An external world in which reading the parquet file fails. -/
def envFailRead : Env := ⟨true, true, false, true, true, true, true⟩

/-- A record whose distance is exactly the boundary value `0.1`. -/
def r_boundaryDistance : TripRecord :=
  ⟨"2023-03-01 02:00:00", "2023-03-01 02:10:00", 3, 18, distanceCutoff, 10⟩

-- ## Theorems

theorem distanceCutoff_eq : distanceCutoff = 0.1 := by
  rw [distanceCutoff, Rat.mk'_eq_divInt, Rat.divInt_eq_div]
  norm_num

theorem fareCutoff_eq : fareCutoff = 2.5 := by
  rw [fareCutoff, Rat.mk'_eq_divInt, Rat.divInt_eq_div]
  norm_num

theorem filterTrips_eq_filter (trips : List TripRecord) :
    filterTrips trips = trips.filter fun r =>
      decide (r.PULocationID ∈ bronx ∧ r.DOLocationID ∈ bronx ∧
        r.trip_distance > 0.1 ∧ r.fare_amount > 2.5) := by
  unfold filterTrips
  rw [List.filter_filter, List.filter_filter]
  apply List.filter_congr
  intro r _
  by_cases h1 : r.PULocationID ∈ bronx <;>
    by_cases h2 : r.DOLocationID ∈ bronx <;>
    by_cases h3 : r.trip_distance > distanceCutoff <;>
    by_cases h4 : r.fare_amount > fareCutoff <;>
    simp [h1, h2, h3, h4, ← distanceCutoff_eq, ← fareCutoff_eq]

theorem mem_filterTrips {r : TripRecord} {trips : List TripRecord} :
    r ∈ filterTrips trips ↔
      r ∈ trips ∧ r.PULocationID ∈ bronx ∧ r.DOLocationID ∈ bronx ∧
        r.trip_distance > 0.1 ∧ r.fare_amount > 2.5 := by
  rw [filterTrips_eq_filter, List.mem_filter]
  simp

/-- Claim C1: for every input sequence, the Filter Engine's output is exactly
the subsequence of records whose pickup zone is in the allow-set and whose
dropoff zone is in the same allow-set, whose distance is strictly greater
than 0.1 and whose fare is strictly greater than 2.5; records sitting exactly
on the boundary values 0.1 or 2.5 are excluded. -/
theorem c1_filter_exact (trips : List TripRecord) :
    (filterTrips trips = trips.filter fun r =>
      decide (r.PULocationID ∈ bronx ∧ r.DOLocationID ∈ bronx ∧
        r.trip_distance > 0.1 ∧ r.fare_amount > 2.5))
    ∧ (filterTrips trips).Sublist trips
    ∧ (∀ r ∈ filterTrips trips,
        r.PULocationID ∈ bronx ∧ r.DOLocationID ∈ bronx ∧
          r.trip_distance > 0.1 ∧ r.fare_amount > 2.5)
    ∧ (∀ r : TripRecord, r.trip_distance = 0.1 ∨ r.fare_amount = 2.5 →
        r ∉ filterTrips trips) := by
  refine ⟨filterTrips_eq_filter trips, ?_, ?_, ?_⟩
  · exact ((List.filter_sublist _).trans (List.filter_sublist _)).trans (List.filter_sublist _)
  · intro r hr
    exact (mem_filterTrips.mp hr).2
  · intro r h hmem
    obtain ⟨-, -, -, h3, h4⟩ := mem_filterTrips.mp hmem
    rcases h with h | h
    · exact lt_irrefl _ (h ▸ h3)
    · exact lt_irrefl _ (h ▸ h4)

/-- Claim C1, witness: a record with distance exactly 0.1 is excluded. -/
theorem c1_filter_exact_witness :
    r_boundaryDistance ∉ filterTrips [r_boundaryDistance] :=
  (c1_filter_exact [r_boundaryDistance]).2.2.2 r_boundaryDistance
    (Or.inl distanceCutoff_eq)

/-- Claim C3 as stated is false: `r_smallDistance` travels between two
allowed zones (3 → 18) yet is absent from the filter output, because its
distance 0.05 fails the distance threshold — absence is not equivalent to a
zone-membership failure. -/
theorem c3_counterexample :
    ¬ ((r_smallDistance ∉ filterTrips [r_smallDistance]) ↔
        (r_smallDistance.PULocationID ∉ bronx ∨ r_smallDistance.DOLocationID ∉ bronx)) := by
  decide

/-- Claim C3, amended: a record of the input is absent from the Filter
Engine's output if and only if its pickup zone is outside the allow-set, or
its dropoff zone is outside the allow-set, or its distance is at most 0.1,
or its fare is at most 2.5. -/
theorem c3_exclusion_iff (trips : List TripRecord) (r : TripRecord)
    (hr : r ∈ trips) :
    r ∉ filterTrips trips ↔
      r.PULocationID ∉ bronx ∨ r.DOLocationID ∉ bronx ∨
        r.trip_distance ≤ 0.1 ∨ r.fare_amount ≤ 2.5 := by
  rw [show (r ∉ filterTrips trips) = ¬ (r ∈ filterTrips trips) from rfl,
    mem_filterTrips]
  simp only [hr, true_and, not_and_or, not_lt]

/-- Claim C3, witness: the amended equivalence at the concrete record. -/
theorem c3_exclusion_iff_witness :
    r_smallDistance ∉ filterTrips [r_smallDistance] ↔
      r_smallDistance.PULocationID ∉ bronx ∨ r_smallDistance.DOLocationID ∉ bronx ∨
        r_smallDistance.trip_distance ≤ 0.1 ∨ r_smallDistance.fare_amount ≤ 2.5 :=
  c3_exclusion_iff [r_smallDistance] r_smallDistance (by decide)

theorem replaceParquet_of_not_contains (l : List Char)
    (h : containsParquet l = false) : replaceParquet l = l := by
  induction l using replaceParquet.induct with
  | case1 rest ih =>
    simp [containsParquet] at h
  | case2 c cs hne ih =>
    rw [replaceParquet.eq_2 c cs hne]
    rw [containsParquet.eq_2 c cs hne] at h
    rw [ih h]
  | case3 => rfl

theorem replaceParquet_append (u t : List Char)
    (hu : containsParquet u = false) :
    replaceParquet (u ++ parquetChars ++ t) = u ++ csvChars ++ replaceParquet t := by
  induction u using replaceParquet.induct with
  | case1 rest ih =>
    simp [containsParquet] at hu
  | case2 c cs hne ih =>
    rw [containsParquet.eq_2 c cs hne] at hu
    have step : replaceParquet (c :: (cs ++ parquetChars ++ t)) =
        c :: replaceParquet (cs ++ parquetChars ++ t) := by
      apply replaceParquet.eq_2
      intro rest hc hcs
      subst hc
      rcases cs with _ | ⟨a1, cs⟩
      · simp [parquetChars] at hcs
      rcases cs with _ | ⟨a2, cs⟩
      · simp [parquetChars] at hcs
      rcases cs with _ | ⟨a3, cs⟩
      · simp [parquetChars] at hcs
      rcases cs with _ | ⟨a4, cs⟩
      · simp [parquetChars] at hcs
      rcases cs with _ | ⟨a5, cs⟩
      · simp [parquetChars] at hcs
      rcases cs with _ | ⟨a6, cs⟩
      · simp [parquetChars] at hcs
      rcases cs with _ | ⟨a7, cs⟩
      · simp [parquetChars] at hcs
      simp only [parquetChars, List.cons_append, List.cons.injEq] at hcs
      obtain ⟨h1, h2, h3, h4, h5, h6, h7, -⟩ := hcs
      exact hne cs rfl (by rw [h1, h2, h3, h4, h5, h6, h7])
    simp only [List.cons_append] at step ⊢
    rw [step, ih hu]
  | case3 =>
    rfl

theorem stage_name (fs : FS) (base : String) (records : List TripRecord) :
    (stage fs base records).2 = csv_filename base := rfl

theorem stage_dir_mem (fs : FS) (base : String) (records : List TripRecord) :
    neo4j_import_dir ∈ (stage fs base records).1.dirs := by
  unfold stage writeCsvFile makedirs_exist_ok
  by_cases h : neo4j_import_dir ∈ fs.dirs <;> simp [h]

theorem stage_content (fs : FS) (base : String) (records : List TripRecord) :
    fileContent (stage fs base records).1
        (path_join neo4j_import_dir (csv_filename base)) =
      some ⟨csvHeader, records.map tripToCsvRow⟩ := by
  unfold stage fileContent writeCsvFile to_csv
  simp [List.find?]

/-- Claim C8 as stated is false: the staged-file name is not the base name
with its extension replaced. For the base name `trips.txt` (no `.parquet`
substring) the Staging Writer keeps the name `trips.txt`, while extension
replacement would give `trips.csv`. -/
theorem c8_counterexample :
    (stage ⟨[], []⟩ "trips.txt" []).2 = "trips.txt" ∧
      (stage ⟨[], []⟩ "trips.txt" []).2 ≠ extension_replaced_csv "trips.txt" := by
  decide

/-- Claim C8, amended: the Staging Writer writes the filtered records as a
header-labelled row file whose name is the input file's base name with every
`.parquet` substring replaced by `.csv` (rather than with its extension
replaced); it creates the destination directory when missing, and it
overwrites any existing staged file at that reference (for every prior
filesystem state, afterwards the staged path holds exactly the new header
plus the records' rows). -/
theorem c8_staging (fs : FS) (base : String) (records : List TripRecord) :
    (stage fs base records).2 = csv_filename base
    ∧ csv_filename base = ⟨replaceParquet base.data⟩
    ∧ neo4j_import_dir ∈ (stage fs base records).1.dirs
    ∧ fileContent (stage fs base records).1
        (path_join neo4j_import_dir (csv_filename base)) =
      some ⟨csvHeader, records.map tripToCsvRow⟩ :=
  ⟨stage_name fs base records, rfl, stage_dir_mem fs base records,
   stage_content fs base records⟩

/-- Claim C10: the staged-file name is derived by substring replacement, not
extension replacement. Every occurrence of `.parquet` is replaced by `.csv`
(first conjunct: the scan replaces each occurrence preceded by
occurrence-free text and continues on the remainder); a base name without
any `.parquet` substring is kept whole, original extension included (second
conjunct); and the staged file at that name is still written in the
header-labelled row format (third conjunct). -/
theorem c10_substring_replacement :
    (∀ u t : List Char, containsParquet u = false →
        replaceParquet (u ++ parquetChars ++ t) = u ++ csvChars ++ replaceParquet t)
    ∧ (∀ base : String, containsParquet base.data = false → csv_filename base = base)
    ∧ (∀ (fs : FS) (base : String) (records : List TripRecord),
        fileContent (stage fs base records).1
            (path_join neo4j_import_dir (csv_filename base)) =
          some ⟨csvHeader, records.map tripToCsvRow⟩) := by
  refine ⟨replaceParquet_append, ?_, stage_content⟩
  intro base h
  show String.mk (replaceParquet base.data) = base
  rw [replaceParquet_of_not_contains base.data h]

/-- Claim C10, witness: one replacement in the middle of a name, and an
untouched name with a foreign extension. -/
theorem c10_substring_replacement_witness :
    (replaceParquet ("ab".data ++ parquetChars ++ "x.parquet".data) =
        "ab".data ++ csvChars ++ replaceParquet "x.parquet".data)
    ∧ csv_filename "data.txt" = "data.txt" :=
  ⟨c10_substring_replacement.1 "ab".data "x.parquet".data (by decide),
   c10_substring_replacement.2.1 "data.txt" (by decide)⟩

/-- Claim C6: constraint setup is idempotent and creates only what is
missing. Running `create_constraints` on any store succeeds and appends
exactly the absent constraints (so a store already holding all three is left
unchanged), and running it a second time on the resulting store returns the
same constraint set, again without error. -/
theorem c6_constraints_idempotent (s : List ConstraintKey) :
    create_constraints s =
      .ok (s ++ allConstraintKeys.filter fun c => decide (c ∉ s))
    ∧ create_constraints (s ++ allConstraintKeys.filter fun c => decide (c ∉ s)) =
      .ok (s ++ allConstraintKeys.filter fun c => decide (c ∉ s)) := by
  by_cases h1 : ConstraintKey.pickupLocationId ∈ s <;>
    by_cases h2 : ConstraintKey.dropoffLocationId ∈ s <;>
    by_cases h3 : ConstraintKey.tripPickupDatetime ∈ s <;>
    simp [create_constraints, createConstraintStmt, allConstraintKeys,
      h1, h2, h3, List.mem_append, List.append_assoc]

theorem mergePickup_trips (g : Graph) (pu : Int) :
    (mergePickup g pu).trips = g.trips := by
  unfold mergePickup; split <;> rfl

theorem mergePickup_nextId (g : Graph) (pu : Int) :
    (mergePickup g pu).nextId = g.nextId := by
  unfold mergePickup; split <;> rfl

theorem mergePickup_dropoffLocations (g : Graph) (pu : Int) :
    (mergePickup g pu).dropoffLocations = g.dropoffLocations := by
  unfold mergePickup; split <;> rfl

theorem mergePickup_mem (g : Graph) (pu : Int) :
    pu ∈ (mergePickup g pu).pickupLocations := by
  unfold mergePickup; split_ifs with h
  · exact h
  · simp

theorem mergePickup_length (g : Graph) (pu : Int) :
    (mergePickup g pu).pickupLocations.length =
      (if pu ∈ g.pickupLocations then g.pickupLocations.length
        else g.pickupLocations.length + 1) := by
  unfold mergePickup; split_ifs with h <;> simp [h]

theorem mergeDropoff_trips (g : Graph) (dl : Int) :
    (mergeDropoff g dl).trips = g.trips := by
  unfold mergeDropoff; split <;> rfl

theorem mergeDropoff_nextId (g : Graph) (dl : Int) :
    (mergeDropoff g dl).nextId = g.nextId := by
  unfold mergeDropoff; split <;> rfl

theorem mergeDropoff_pickupLocations (g : Graph) (dl : Int) :
    (mergeDropoff g dl).pickupLocations = g.pickupLocations := by
  unfold mergeDropoff; split <;> rfl

theorem mergeDropoff_mem (g : Graph) (dl : Int) :
    dl ∈ (mergeDropoff g dl).dropoffLocations := by
  unfold mergeDropoff; split_ifs with h
  · exact h
  · simp

theorem mergeDropoff_length (g : Graph) (dl : Int) :
    (mergeDropoff g dl).dropoffLocations.length =
      (if dl ∈ g.dropoffLocations then g.dropoffLocations.length
        else g.dropoffLocations.length + 1) := by
  unfold mergeDropoff; split_ifs with h <;> simp [h]

theorem mergeStartsTrip_locations (g : Graph) (pu : Int) (tid : Nat) :
    (mergeStartsTrip g pu tid).pickupLocations = g.pickupLocations
    ∧ (mergeStartsTrip g pu tid).dropoffLocations = g.dropoffLocations
    ∧ (mergeStartsTrip g pu tid).trips = g.trips
    ∧ (mergeStartsTrip g pu tid).endsTrip = g.endsTrip
    ∧ (pu, tid) ∈ (mergeStartsTrip g pu tid).startsTrip := by
  unfold mergeStartsTrip; split_ifs with h <;> simp [h]

theorem mergeEndsTrip_locations (g : Graph) (tid : Nat) (dl : Int) :
    (mergeEndsTrip g tid dl).pickupLocations = g.pickupLocations
    ∧ (mergeEndsTrip g tid dl).dropoffLocations = g.dropoffLocations
    ∧ (mergeEndsTrip g tid dl).trips = g.trips
    ∧ (mergeEndsTrip g tid dl).startsTrip = g.startsTrip
    ∧ (tid, dl) ∈ (mergeEndsTrip g tid dl).endsTrip := by
  unfold mergeEndsTrip; split_ifs with h <;> simp [h]

/-- Claim C4: the Graph Loader runs the entire staged batch inside one write
transaction. The rows are processed sequentially within that transaction
(first conjunct); if any row fails, the transaction aborts and the store
keeps its pre-transaction contents — no partial writes (second conjunct); a
row whose pickup zone cell fails integer coercion aborts (third conjunct);
and a processable row merges (locate-or-create, so a new node only when
absent) the `PickupLocation` keyed by the integer-coerced pickup zone and
the `DropoffLocation` keyed by the integer-coerced dropoff zone,
unconditionally appends a fresh `Trip` node carrying the row's timestamp
strings and float-coerced distance and fare, and merges a `STARTS_TRIP` edge
from the pickup node to that Trip and an `ENDS_TRIP` edge from that Trip to
the dropoff node (fourth conjunct). -/
theorem c4_graph_loader :
    (∀ (g : Graph) (row : CsvRow) (rows : List CsvRow),
        insert_data (row :: rows) g =
          match insert_row g row with
          | .ok g2 => insert_data rows g2
          | .error e => .error e)
    ∧ (∀ (g : Graph) (rows : List CsvRow) (e : String),
        insert_data rows g = .error e → execute_write_insert g rows = (g, some e))
    ∧ (∀ (g : Graph) (row : CsvRow), toInteger row.PULocationID = none →
        insert_row g row = .error "type coercion failed")
    ∧ (∀ (g : Graph) (row : CsvRow) (pu dl : Int) (dist fare : ℚ),
        toInteger row.PULocationID = some pu →
        toInteger row.DOLocationID = some dl →
        toFloat row.trip_distance = some dist →
        toFloat row.fare_amount = some fare →
        (∀ t ∈ g.trips, t.2.pickup_datetime ≠ row.tpep_pickup_datetime) →
        ∃ g2, insert_row g row = .ok g2
          ∧ pu ∈ g2.pickupLocations
          ∧ g2.pickupLocations.length =
              (if pu ∈ g.pickupLocations then g.pickupLocations.length
                else g.pickupLocations.length + 1)
          ∧ dl ∈ g2.dropoffLocations
          ∧ g2.dropoffLocations.length =
              (if dl ∈ g.dropoffLocations then g.dropoffLocations.length
                else g.dropoffLocations.length + 1)
          ∧ g2.trips = g.trips ++
              [(g.nextId, ⟨row.tpep_pickup_datetime, row.tpep_dropoff_datetime, dist, fare⟩)]
          ∧ (pu, g.nextId) ∈ g2.startsTrip
          ∧ (g.nextId, dl) ∈ g2.endsTrip) := by
  refine ⟨fun g row rows => rfl, ?_, ?_, ?_⟩
  · intro g rows e h
    unfold execute_write_insert
    rw [h]
  · intro g row h
    unfold insert_row
    rw [h]
  · intro g row pu dl dist fare h1 h2 h3 h4 h5
    have htrips : (mergeDropoff (mergePickup g pu) dl).trips = g.trips := by
      rw [mergeDropoff_trips, mergePickup_trips]
    have hnext : (mergeDropoff (mergePickup g pu) dl).nextId = g.nextId := by
      rw [mergeDropoff_nextId, mergePickup_nextId]
    have hany : ((mergeDropoff (mergePickup g pu) dl).trips.any
        fun t => decide (t.2.pickup_datetime = row.tpep_pickup_datetime)) = false := by
      rw [htrips]
      simp only [List.any_eq_false, decide_eq_true_eq]
      exact h5
    have hrow : insert_row g row = .ok (mergeEndsTrip (mergeStartsTrip
        { mergeDropoff (mergePickup g pu) dl with
          trips := (mergeDropoff (mergePickup g pu) dl).trips ++
            [((mergeDropoff (mergePickup g pu) dl).nextId,
              ⟨row.tpep_pickup_datetime, row.tpep_dropoff_datetime, dist, fare⟩)],
          nextId := (mergeDropoff (mergePickup g pu) dl).nextId + 1 }
        pu (mergeDropoff (mergePickup g pu) dl).nextId)
        (mergeDropoff (mergePickup g pu) dl).nextId dl) := by
      simp only [insert_row, h1, h2, h3, h4, hany, Bool.false_eq_true, if_false]
    refine ⟨_, hrow, ?_, ?_, ?_, ?_, ?_, ?_, ?_⟩
    · rw [(mergeEndsTrip_locations _ _ _).1, (mergeStartsTrip_locations _ _ _).1]
      show pu ∈ (mergeDropoff (mergePickup g pu) dl).pickupLocations
      rw [mergeDropoff_pickupLocations]
      exact mergePickup_mem g pu
    · rw [(mergeEndsTrip_locations _ _ _).1, (mergeStartsTrip_locations _ _ _).1]
      show ((mergeDropoff (mergePickup g pu) dl).pickupLocations).length = _
      rw [mergeDropoff_pickupLocations, mergePickup_length]
    · rw [(mergeEndsTrip_locations _ _ _).2.1, (mergeStartsTrip_locations _ _ _).2.1]
      exact mergeDropoff_mem _ dl
    · rw [(mergeEndsTrip_locations _ _ _).2.1, (mergeStartsTrip_locations _ _ _).2.1]
      rw [mergeDropoff_length, mergePickup_dropoffLocations]
    · rw [(mergeEndsTrip_locations _ _ _).2.2.1, (mergeStartsTrip_locations _ _ _).2.2.1]
      show (mergeDropoff (mergePickup g pu) dl).trips ++ _ = _
      rw [htrips, hnext]
    · rw [(mergeEndsTrip_locations _ _ _).2.2.2.1, ← hnext]
      exact (mergeStartsTrip_locations _ _ _).2.2.2.2
    · rw [← hnext]
      exact (mergeEndsTrip_locations _ _ _).2.2.2.2

/-- Claim C4, witness: the per-row contract at a concrete well-formed row on
the empty store, and the coercion-failure abort at a malformed row. -/
theorem c4_graph_loader_witness :
    (∃ g2, insert_row emptyStore goodRow = .ok g2
      ∧ (3 : Int) ∈ g2.pickupLocations
      ∧ g2.pickupLocations.length =
          (if (3 : Int) ∈ emptyStore.pickupLocations then emptyStore.pickupLocations.length
            else emptyStore.pickupLocations.length + 1)
      ∧ (18 : Int) ∈ g2.dropoffLocations
      ∧ g2.dropoffLocations.length =
          (if (18 : Int) ∈ emptyStore.dropoffLocations then emptyStore.dropoffLocations.length
            else emptyStore.dropoffLocations.length + 1)
      ∧ g2.trips = emptyStore.trips ++
          [(emptyStore.nextId,
            ⟨goodRow.tpep_pickup_datetime, goodRow.tpep_dropoff_datetime, 2, 10⟩)]
      ∧ ((3 : Int), emptyStore.nextId) ∈ g2.startsTrip
      ∧ (emptyStore.nextId, (18 : Int)) ∈ g2.endsTrip)
    ∧ insert_row emptyStore badZoneRow = .error "type coercion failed" :=
  ⟨c4_graph_loader.2.2.2 emptyStore goodRow 3 18 2 10 (by decide) (by decide)
      (by decide) (by decide) (by decide),
   c4_graph_loader.2.2.1 emptyStore badZoneRow (by decide)⟩

theorem create_constraints_eq (s : List ConstraintKey) :
    create_constraints s =
      .ok (s ++ allConstraintKeys.filter fun c => decide (c ∉ s)) := by
  by_cases h1 : ConstraintKey.pickupLocationId ∈ s <;>
    by_cases h2 : ConstraintKey.dropoffLocationId ∈ s <;>
    by_cases h3 : ConstraintKey.tripPickupDatetime ∈ s <;>
    simp [create_constraints, createConstraintStmt, allConstraintKeys,
      h1, h2, h3, List.mem_append, List.append_assoc]

theorem runAttempt_cases (env : Env) (records : List TripRecord) (base : String)
    (w : World) :
    ((runAttempt env records base w).1 = true ∧
      (runAttempt env records base w).2.2 = fullAttemptTrace)
    ∨ ((runAttempt env records base w).1 = false ∧
      ∃ k, k ∈ ([1, 2, 3, 4, 7, 8, 9] : List Nat) ∧
        (runAttempt env records base w).2.2 = fullAttemptTrace.take k) := by
  simp only [runAttempt]
  repeat' split
  all_goals first
    | exact Or.inl ⟨rfl, rfl⟩
    | exact Or.inr ⟨rfl, 1, by decide, rfl⟩
    | exact Or.inr ⟨rfl, 2, by decide, rfl⟩
    | exact Or.inr ⟨rfl, 3, by decide, rfl⟩
    | exact Or.inr ⟨rfl, 4, by decide, rfl⟩
    | exact Or.inr ⟨rfl, 7, by decide, rfl⟩
    | exact Or.inr ⟨rfl, 8, by decide, rfl⟩
    | exact Or.inr ⟨rfl, 9, by decide, rfl⟩

/-- Claim C2 as stated is false: in a concrete successful pipeline run the
Filter Engine and the Staging Writer run before the full wipe, not after it —
the wipe is not the second stage. -/
theorem c2_counterexample :
    Ev.filterRecords ∈ (runAttempt envAllOk [] "x.parquet" initialWorld).2.2
    ∧ Ev.writeStagedCsv ∈ (runAttempt envAllOk [] "x.parquet" initialWorld).2.2
    ∧ Ev.wipeGraph ∈ (runAttempt envAllOk [] "x.parquet" initialWorld).2.2
    ∧ (runAttempt envAllOk [] "x.parquet" initialWorld).2.2.indexOf Ev.filterRecords <
        (runAttempt envAllOk [] "x.parquet" initialWorld).2.2.indexOf Ev.wipeGraph
    ∧ (runAttempt envAllOk [] "x.parquet" initialWorld).2.2.indexOf Ev.writeStagedCsv <
        (runAttempt envAllOk [] "x.parquet" initialWorld).2.2.indexOf Ev.wipeGraph := by
  decide

/-- Claim C2, amended: in every pipeline run the stage order is constraint
setup, then filter, then stage, then wipe, then load — the full wipe happens
after the Filter Engine and the Staging Writer and immediately before the
Graph Loader, not before them. -/
theorem c2_stage_order (env : Env) (records : List TripRecord) (base : String)
    (w : World) :
    (Ev.filterRecords ∈ (runAttempt env records base w).2.2 →
      Ev.constraintSetup ∈ (runAttempt env records base w).2.2 ∧
      (runAttempt env records base w).2.2.indexOf Ev.constraintSetup <
        (runAttempt env records base w).2.2.indexOf Ev.filterRecords)
    ∧ (Ev.writeStagedCsv ∈ (runAttempt env records base w).2.2 →
      Ev.filterRecords ∈ (runAttempt env records base w).2.2 ∧
      (runAttempt env records base w).2.2.indexOf Ev.filterRecords <
        (runAttempt env records base w).2.2.indexOf Ev.writeStagedCsv)
    ∧ (Ev.wipeGraph ∈ (runAttempt env records base w).2.2 →
      Ev.writeStagedCsv ∈ (runAttempt env records base w).2.2 ∧
      (runAttempt env records base w).2.2.indexOf Ev.writeStagedCsv <
        (runAttempt env records base w).2.2.indexOf Ev.wipeGraph)
    ∧ (Ev.loadGraph ∈ (runAttempt env records base w).2.2 →
      Ev.wipeGraph ∈ (runAttempt env records base w).2.2 ∧
      (runAttempt env records base w).2.2.indexOf Ev.wipeGraph <
        (runAttempt env records base w).2.2.indexOf Ev.loadGraph) := by
  rcases runAttempt_cases env records base w with ⟨-, h⟩ | ⟨-, k, hk, h⟩
  · rw [h]; decide
  · simp only [List.mem_cons, List.mem_singleton, List.not_mem_nil, or_false] at hk
    rcases hk with rfl | rfl | rfl | rfl | rfl | rfl | rfl <;> rw [h] <;> decide

/-- Claim C2, amended, witness: on a successful run the staging step is
present and strictly after the filter step. -/
theorem c2_stage_order_witness :
    Ev.filterRecords ∈ (runAttempt envAllOk [] "x.parquet" initialWorld).2.2 ∧
    (runAttempt envAllOk [] "x.parquet" initialWorld).2.2.indexOf Ev.filterRecords <
      (runAttempt envAllOk [] "x.parquet" initialWorld).2.2.indexOf Ev.writeStagedCsv :=
  (c2_stage_order envAllOk [] "x.parquet" initialWorld).2.1 (by decide)

/-- Claim C7 as stated is false: in the run in which the store fails all ten
bulk-load transactions, ten connections are acquired (one per attempt) and
none is ever closed — release is not guaranteed on failure paths. -/
theorem c7_counterexample :
    (runMain (fun _ => envFailLoad) [] "x.parquet" initialWorld).2.count Ev.connectVerify = 10
    ∧ (runMain (fun _ => envFailLoad) [] "x.parquet" initialWorld).2.count Ev.closeDriver = 0 := by
  decide

/-- Claim C7, amended: the connection handle an attempt acquires is released
exactly on the success path — a successful attempt ends with `close` as its
last step, while a failed attempt never reaches `close` and leaks its
handle. -/
theorem c7_close_on_success_only (env : Env) (records : List TripRecord)
    (base : String) (w : World) :
    ((runAttempt env records base w).1 = true →
      (runAttempt env records base w).2.2.getLast? = some Ev.closeDriver)
    ∧ ((runAttempt env records base w).1 = false →
      Ev.closeDriver ∉ (runAttempt env records base w).2.2) := by
  rcases runAttempt_cases env records base w with ⟨h1, h2⟩ | ⟨h1, k, hk, h2⟩
  · refine ⟨fun _ => by rw [h2]; decide, fun hf => ?_⟩
    rw [h1] at hf
    cases hf
  · refine ⟨fun ht => ?_, fun _ => ?_⟩
    · rw [h1] at ht
      cases ht
    · simp only [List.mem_cons, List.mem_singleton, List.not_mem_nil, or_false] at hk
      rcases hk with rfl | rfl | rfl | rfl | rfl | rfl | rfl <;> rw [h2] <;> decide

/-- Claim C7, amended, witness: the attempt that fails at the bulk load never
closes its connection. -/
theorem c7_close_on_success_only_witness :
    Ev.closeDriver ∉ (runAttempt envFailLoad [] "x.parquet" initialWorld).2.2 :=
  (c7_close_on_success_only envFailLoad [] "x.parquet" initialWorld).2 (by decide)

/-- Claim C9: when the attempt fails while reading the parquet file, during
the filter/normalise transform, or while writing the staged CSV — that is,
before the staged file has been written successfully — the attempt reports
failure, the graph store's contents are untouched, and the destructive wipe
was never issued. -/
theorem c9_wipe_only_after_staging (env : Env) (records : List TripRecord)
    (base : String) (w : World)
    (h : env.readOk = false ∨ env.transformOk = false ∨ env.writeOk = false) :
    (runAttempt env records base w).1 = false
    ∧ (runAttempt env records base w).2.1.graph = w.graph
    ∧ Ev.wipeGraph ∉ (runAttempt env records base w).2.2 := by
  rcases h with h | h | h <;>
    simp only [runAttempt, create_constraints_eq, h, Bool.false_eq_true, if_false] <;>
    split_ifs <;>
    exact ⟨rfl, rfl, by simp⟩

/-- Claim C9, witness: a run whose parquet read fails leaves the graph of the
initial world unchanged and never wipes. -/
theorem c9_wipe_only_after_staging_witness :
    (runAttempt envFailRead [] "x.parquet" initialWorld).1 = false
    ∧ (runAttempt envFailRead [] "x.parquet" initialWorld).2.1.graph = initialWorld.graph
    ∧ Ev.wipeGraph ∉ (runAttempt envFailRead [] "x.parquet" initialWorld).2.2 :=
  c9_wipe_only_after_staging envFailRead [] "x.parquet" initialWorld (by decide)

theorem runAttempt_count_connect (env : Env) (records : List TripRecord)
    (base : String) (w : World) :
    ((runAttempt env records base w).2.2).count Ev.connectVerify = 1 := by
  rcases runAttempt_cases env records base w with ⟨-, h⟩ | ⟨-, k, hk, h⟩
  · rw [h]; decide
  · simp only [List.mem_cons, List.mem_singleton, List.not_mem_nil, or_false] at hk
    rcases hk with rfl | rfl | rfl | rfl | rfl | rfl | rfl <;> rw [h] <;> decide

theorem runAttempt_no_loop_events (env : Env) (records : List TripRecord)
    (base : String) (w : World) :
    (∀ k, Ev.logAttempt k ∉ (runAttempt env records base w).2.2)
    ∧ Ev.sleepBackoff ∉ (runAttempt env records base w).2.2 := by
  rcases runAttempt_cases env records base w with ⟨-, h⟩ | ⟨-, k, hk, h⟩
  · rw [h]
    constructor
    · intro k
      simp [fullAttemptTrace]
    · simp [fullAttemptTrace]
  · simp only [List.mem_cons, List.mem_singleton, List.not_mem_nil, or_false] at hk
    rcases hk with rfl | rfl | rfl | rfl | rfl | rfl | rfl <;> rw [h] <;>
      exact ⟨fun k => by simp [fullAttemptTrace], by simp [fullAttemptTrace]⟩

theorem runAttempt_countP_log (env : Env) (records : List TripRecord)
    (base : String) (w : World) :
    ((runAttempt env records base w).2.2).countP isLogEv = 0 := by
  rw [List.countP_eq_zero]
  intro a ha
  cases a <;> simp [isLogEv]
  exact (runAttempt_no_loop_events env records base w).1 _ ha

theorem runAttempt_count_sleep (env : Env) (records : List TripRecord)
    (base : String) (w : World) :
    ((runAttempt env records base w).2.2).count Ev.sleepBackoff = 0 :=
  List.count_eq_zero.mpr (runAttempt_no_loop_events env records base w).2

theorem mainLoop_count_connect (envs : Nat → Env) (records : List TripRecord)
    (base : String) :
    ∀ (rem att : Nat) (w : World),
      ((mainLoop envs records base rem att w).2).count Ev.connectVerify ≤ rem := by
  intro rem
  induction rem with
  | zero => intro att w; simp [mainLoop]
  | succ n ih =>
    intro att w
    rcases hra : runAttempt (envs att) records base w with ⟨ok, w', tr⟩
    have htr : tr.count Ev.connectVerify = 1 := by
      have := runAttempt_count_connect (envs att) records base w
      rw [hra] at this
      exact this
    cases ok
    · simp only [mainLoop, hra, List.count_append, List.count_cons]
      have := ih (att + 1) w'
      simp [htr, this]
      omega
    · simp only [mainLoop, hra]
      simp [htr]

theorem mainLoop_sleep_eq_log (envs : Nat → Env) (records : List TripRecord)
    (base : String) :
    ∀ (rem att : Nat) (w : World),
      ((mainLoop envs records base rem att w).2).count Ev.sleepBackoff =
        ((mainLoop envs records base rem att w).2).countP isLogEv := by
  intro rem
  induction rem with
  | zero => intro att w; simp [mainLoop]
  | succ n ih =>
    intro att w
    rcases hra : runAttempt (envs att) records base w with ⟨ok, w', tr⟩
    have h1 : tr.count Ev.sleepBackoff = 0 := by
      have := runAttempt_count_sleep (envs att) records base w
      rw [hra] at this
      exact this
    have h2 : tr.countP isLogEv = 0 := by
      have := runAttempt_countP_log (envs att) records base w
      rw [hra] at this
      exact this
    cases ok
    · simp only [mainLoop, hra, List.count_append, List.countP_append,
        List.count_cons, List.countP_cons]
      simp [h1, h2, isLogEv, ih (att + 1) w']
    · simp only [mainLoop, hra]
      rw [h1, h2]

theorem mainLoop_log_bounds (envs : Nat → Env) (records : List TripRecord)
    (base : String) :
    ∀ (rem att : Nat) (w : World) (k : Nat),
      Ev.logAttempt k ∈ (mainLoop envs records base rem att w).2 →
        att + 1 ≤ k ∧ k ≤ att + rem := by
  intro rem
  induction rem with
  | zero => intro att w k hk; simp [mainLoop] at hk
  | succ n ih =>
    intro att w k hk
    rcases hra : runAttempt (envs att) records base w with ⟨ok, w', tr⟩
    have hno : Ev.logAttempt k ∉ tr := by
      have := (runAttempt_no_loop_events (envs att) records base w).1 k
      rw [hra] at this
      exact this
    cases ok
    · simp only [mainLoop, hra, List.mem_append, List.mem_cons] at hk
      rcases hk with hk | hk | hk | hk
      · exact absurd hk hno
      · obtain rfl : k = att + 1 := by injection hk
        omega
      · cases hk
      · have := ih (att + 1) w' k hk
        omega
    · simp only [mainLoop, hra] at hk
      exact absurd hk hno

/-- Claim C5: the retry loop runs at most `total_attempts = 10` attempts
(first conjunct: at most ten connect-and-run steps in any run); every failed
attempt logs its 1-based attempt number — always between 1 and 10 — and then
sleeps the fixed backoff (second and third conjuncts: sleeps and log entries
are in bijection, and log numbers stay in range); and in the concrete run
whose bulk load always fails, all ten attempts replay the entire pipeline —
constraint setup, staging, wipe and load are each executed ten times, every
attempt number from 1 to 10 is logged, and the run ends normally, returning
after the tenth failure without further signalling (the loop is a total
function; no close ever happens in that run). -/
theorem c5_retry_loop :
    (∀ (envs : Nat → Env) (records : List TripRecord) (base : String) (w : World),
        ((runMain envs records base w).2).count Ev.connectVerify ≤ total_attempts
        ∧ ((runMain envs records base w).2).count Ev.sleepBackoff =
            ((runMain envs records base w).2).countP isLogEv
        ∧ (∀ k, Ev.logAttempt k ∈ (runMain envs records base w).2 →
            1 ≤ k ∧ k ≤ total_attempts))
    ∧ ((runMain (fun _ => envFailLoad) [] "x.parquet" initialWorld).2.count
          Ev.connectVerify = 10
      ∧ (runMain (fun _ => envFailLoad) [] "x.parquet" initialWorld).2.count
          Ev.constraintSetup = 10
      ∧ (runMain (fun _ => envFailLoad) [] "x.parquet" initialWorld).2.count
          Ev.writeStagedCsv = 10
      ∧ (runMain (fun _ => envFailLoad) [] "x.parquet" initialWorld).2.count
          Ev.wipeGraph = 10
      ∧ (runMain (fun _ => envFailLoad) [] "x.parquet" initialWorld).2.count
          Ev.sleepBackoff = 10
      ∧ ((List.range total_attempts).all fun i =>
          decide (Ev.logAttempt (i + 1) ∈
            (runMain (fun _ => envFailLoad) [] "x.parquet" initialWorld).2)) = true
      ∧ (runMain (fun _ => envFailLoad) [] "x.parquet" initialWorld).2.count
          Ev.closeDriver = 0) := by
  constructor
  · intro envs records base w
    refine ⟨mainLoop_count_connect envs records base total_attempts 0 w,
      mainLoop_sleep_eq_log envs records base total_attempts 0 w, ?_⟩
    intro k hk
    have := mainLoop_log_bounds envs records base total_attempts 0 w k hk
    omega
  · decide

/-- Claim C5, witness: attempt number 1 is logged in the always-failing run,
and its number lies in the allowed range. -/
theorem c5_retry_loop_witness : 1 ≤ 1 ∧ 1 ≤ total_attempts :=
  (c5_retry_loop.1 (fun _ => envFailLoad) [] "x.parquet" initialWorld).2.2 1 (by decide)
